import Mathlib

/-!
Shallow embedding of the synchronization engine of the supplement-pos-backend
repository: the paginated remote fetcher (`fetchPaged` in
services/productService.js), the retrying page getter (`getWithRetry` in the
cloverService variant), the entity upsert mappers (products, orders), the
order sync and reconciliation orchestrator (`syncOrders` in
services/orderService.js), the category/product/inventory orchestrators
(services/syncService.js and the productService `syncAllProducts` variants),
and the derived stock status (services/inventoryService.js).

JavaScript numbers holding money are integer cents throughout the source, so
they are modelled as `Int`.  Timestamps are modelled as abstract `Nat` clock
values.  Nullable JSON fields are `Option` values.  The relational store is
modelled as a list of rows; SQL upserts become explicit insert-or-update
functions on that list.
-/

/-- Stock status vocabulary produced by the CASE expression in
services/inventoryService.js (getInventory, getInventoryByProductId) and in
productService getProductsForKiosk. -/
inductive StockStatus where
  | OUT_OF_STOCK
  | LOW_STOCK
  | IN_STOCK
deriving DecidableEq, Repr

/-- The derived stock status, translated from the SQL CASE expression in
inventoryService.getInventory (lines 29-33):
`WHEN on_hand <= 0 THEN 'OUT_OF_STOCK' WHEN on_hand <= reorder_level THEN
'LOW_STOCK' ELSE 'IN_STOCK'`. -/
def stockStatus (onHand reorderLevel : Int) : StockStatus :=
  if onHand ≤ 0 then StockStatus.OUT_OF_STOCK
  else if onHand ≤ reorderLevel then StockStatus.LOW_STOCK
  else StockStatus.IN_STOCK

/-- Result of one run of the paginated fetch loop: the list of pages returned
by each HTTP request, in request order, and the list of pages passed to the
per-page handler (`onBatch`), in invocation order. -/
structure PagedRun (α : Type) where
  requests : List (List α)
  handled : List (List α)
deriving DecidableEq, Repr

/-- The loop body of `fetchPaged` (services/productService.js lines 31-49),
run against an abstract remote collection.  `remaining` is the suffix of the
collection starting at the current offset; one request returns
`remaining.take limit`.  The loop stops without invoking the handler on an
empty page, invokes the handler and stops on a short page, and otherwise
invokes the handler and advances the offset by the page length. -/
def fetchPagedLoop {α : Type} (limit : Nat) (remaining : List α) : PagedRun α :=
  if _h1 : (remaining.take limit).length = 0 then
    ⟨[remaining.take limit], []⟩
  else if _h2 : (remaining.take limit).length < limit then
    ⟨[remaining.take limit], [remaining.take limit]⟩
  else
    let rest := fetchPagedLoop limit (remaining.drop limit)
    ⟨remaining.take limit :: rest.requests, remaining.take limit :: rest.handled⟩
termination_by remaining.length
decreasing_by
  simp only [List.length_take, List.length_drop] at *
  omega

/-- `fetchPaged` applied to a remote collection `records` with page size
`limit`, starting at offset 0 (services/productService.js lines 31-49). -/
def fetchPaged {α : Type} (records : List α) (limit : Nat) : PagedRun α :=
  fetchPagedLoop limit records

/-- The statuses retried by `getWithRetry` (cloverService variant, unnamed
part_002 lines 226): `res.status === 408 || res.status === 429 ||
res.status >= 500`. -/
def isRetryableStatus (s : Nat) : Bool :=
  (s == 408) || (s == 429) || (decide (500 ≤ s))

/-- Whether a fetch returned the response body (carrying the final status),
threw the loop's own `Error` after its status checks, or was aborted by an
axios rejection: the clients are built with `validateStatus: s => s < 500`
(unnamed part_002 line 214, services/productService.js line 27), so any 5xx
response rejects the `await http.get(...)` promise itself, and neither
`getWithRetry` nor `fetchPaged` catches that rejection. -/
inductive RetryResult where
  | ok (status : Nat)
  | failed (status : Nat)
  | httpThrown (status : Nat)
deriving DecidableEq, Repr

/-- Outcome of one `getWithRetry` call: the delivered or failing HTTP status,
the number of GET requests issued, and the sequence of backoff delays slept
(milliseconds), in order. -/
structure RetryTrace where
  result : RetryResult
  getCalls : Nat
  delays : List Nat
deriving DecidableEq, Repr

/-- The retry loop of `getWithRetry` (unnamed part_002 lines 220-239),
composed with the client it actually calls through: `makeClient()` in the
same file configures axios with `validateStatus: s => s < 500` (line 214),
so `await http.get(path, ...)` itself throws on any 5xx response before
the loop's `res.status >= 500` check can run — that disjunct of the retry
condition is unreachable, and the rejection propagates out of
`getWithRetry` uncaught.  `statusAt k` is the HTTP status of the k-th GET
request of this call.  For statuses the client resolves (< 500): a
retryable status (in practice 408 or 429) increments the attempt counter,
fails once `tries` attempts have been made, and otherwise sleeps
`baseDelayMs * 2 ^ (attempt - 1)` and retries; any other status `>= 400`
fails immediately; anything else succeeds immediately. -/
def getWithRetryLoop (statusAt : Nat → Nat) (tries baseDelayMs : Nat)
    (attempt call : Nat) : RetryTrace :=
  let s := statusAt call
  if 500 ≤ s then
    ⟨RetryResult.httpThrown s, 1, []⟩
  else if isRetryableStatus s then
    if _h : tries ≤ attempt + 1 then
      ⟨RetryResult.failed s, 1, []⟩
    else
      let rest := getWithRetryLoop statusAt tries baseDelayMs (attempt + 1) (call + 1)
      ⟨rest.result, rest.getCalls + 1, baseDelayMs * 2 ^ attempt :: rest.delays⟩
  else if 400 ≤ s then
    ⟨RetryResult.failed s, 1, []⟩
  else
    ⟨RetryResult.ok s, 1, []⟩
termination_by tries - attempt
decreasing_by omega

/-- `getWithRetry` with the source's default options `tries = 4`,
`baseDelayMs = 300` (unnamed part_002 line 220). -/
def getWithRetry (statusAt : Nat → Nat) : RetryTrace :=
  getWithRetryLoop statusAt 4 300 0 0

/-- The status handling of one page request in `fetchPaged`
(services/productService.js lines 35-36): the `clover()` client (line 27)
also carries `validateStatus: s => s < 500`, so a 5xx response rejects
inside axios; any other status `>= 400` is thrown by the loop's own check
`if (res.status >= 400) throw ...`; everything else resolves.  There is no
retry of any kind: every outcome follows a single GET with no backoff. -/
def fetchPagedStatusCheck (s : Nat) : RetryTrace :=
  if 500 ≤ s then ⟨RetryResult.httpThrown s, 1, []⟩
  else if 400 ≤ s then ⟨RetryResult.failed s, 1, []⟩
  else ⟨RetryResult.ok s, 1, []⟩

/-- One row of the `transactions` table, restricted to the columns read and
written by `syncOrders` (services/orderService.js lines 83-110). -/
structure TransactionRow where
  merchantId : String
  cloverOrderId : Option String
  externalId : Option String
  subtotalCents : Int
  taxCents : Int
  discountCents : Int
  totalCents : Int
  status : String
  orderFromSc : Bool
  completedAt : Option Nat
deriving DecidableEq, Repr

/-- One line item of a remote order (`order.lineItems.elements[i]`),
restricted to the fields read by `syncOrders`. -/
structure RemoteLineItem where
  itemId : Option String
  name : Option String
  price : Option Int
  quantity : Option Int
  total : Option Int
deriving DecidableEq, Repr

/-- One remote order record as consumed by `syncOrders`
(services/orderService.js lines 52-79).  `lineItems = none` models a record
where `order.lineItems` or `order.lineItems.elements` is absent. -/
structure RemoteOrder where
  id : String
  externalId : Option String
  state : String
  paymentState : Option String
  total : Option Int
  lineItems : Option (List RemoteLineItem)
deriving DecidableEq, Repr

/-- Subtotal computation of `syncOrders` (services/orderService.js lines
64-70): the sum of `li.price || 0` over the order's line items, zero when
the line-item envelope is absent. -/
def orderSubtotalCents (o : RemoteOrder) : Int :=
  ((o.lineItems.getD []).map (fun li => li.price.getD 0)).sum

/-- Field mapping of `syncOrders` for the transactions upsert
(services/orderService.js lines 62-110): `tax_cents` and `discount_cents`
are the constants 0, `total_cents` is `order.total || 0`, `status` is the
exact remote state, and `completed_at` is the current time when
`order.paymentState === 'PAID'` and null otherwise. -/
def mapOrderRow (merchantId : String) (o : RemoteOrder) (now : Nat) :
    TransactionRow :=
  { merchantId := merchantId
    cloverOrderId := some o.id
    externalId := o.externalId
    subtotalCents := orderSubtotalCents o
    taxCents := 0
    discountCents := 0
    totalCents := o.total.getD 0
    status := o.state
    orderFromSc := false
    completedAt := if o.paymentState = some "PAID" then some now else none }

/-- The `DO UPDATE SET` clause of the transactions upsert
(services/orderService.js lines 90-97): all monetary fields, the external
id and the status take the incoming (`EXCLUDED`) values, `order_from_sc` is
left untouched, and `completed_at` becomes
`COALESCE(EXCLUDED.completed_at, transactions.completed_at)`. -/
def applyOrderUpdate (old incoming : TransactionRow) : TransactionRow :=
  { old with
    externalId := incoming.externalId
    subtotalCents := incoming.subtotalCents
    taxCents := incoming.taxCents
    discountCents := incoming.discountCents
    totalCents := incoming.totalCents
    status := incoming.status
    completedAt := incoming.completedAt.orElse (fun _ => old.completedAt) }

/-- Whether a transactions row matches the upsert conflict key
`(merchant_id, clover_order_id)` for the given remote order. -/
def matchesOrderKey (merchantId orderId : String) (r : TransactionRow) : Bool :=
  r.merchantId == merchantId && r.cloverOrderId == some orderId

/-- The transactions upsert of `syncOrders` (services/orderService.js lines
83-110) against a database modelled as a row list: insert the mapped row
when no row has the conflict key, otherwise update the matching row.
Returns the new database and the `(xmax = 0) AS inserted` flag. -/
def upsertTransaction (db : List TransactionRow) (merchantId : String)
    (o : RemoteOrder) (now : Nat) : List TransactionRow × Bool :=
  let incoming := mapOrderRow merchantId o now
  if db.any (matchesOrderKey merchantId o.id) then
    (db.map (fun r => if matchesOrderKey merchantId o.id r
                      then applyOrderUpdate r incoming else r), false)
  else
    (db ++ [incoming], true)

/-- The selection predicate of the prune queries in `syncOrders`
(services/orderService.js lines 188-195 and 214-221): a local transactions
row of this merchant whose non-null `clover_order_id` was not seen in this
run's remote sweep and whose status is not already the tombstone value
`'delete'`. -/
def shouldTombstone (merchantId : String) (seen : List String)
    (r : TransactionRow) : Bool :=
  r.merchantId == merchantId &&
  r.cloverOrderId.isSome &&
  !(seen.any (fun cid => r.cloverOrderId == some cid)) &&
  r.status != "delete"

/-- Result of the reconciliation step of `syncOrders`: the database after
the step, and the `marked_for_delete` and `unmatched` counts reported. -/
structure PruneResult where
  db : List TransactionRow
  markedForDelete : Nat
  unmatched : Nat
deriving DecidableEq, Repr

/-- The reconciliation step of `syncOrders` (services/orderService.js lines
180-225).  With `prune` and a non-empty seen-set, every selected row's
status is updated to `'delete'` and counted; with `prune` disabled the same
selection is only counted; an empty seen-set short-circuits both branches
and mutates nothing. -/
def pruneOrders (db : List TransactionRow) (merchantId : String)
    (seen : List String) (prune : Bool) : PruneResult :=
  if prune && !seen.isEmpty then
    let hits := db.filter (shouldTombstone merchantId seen)
    { db := db.map (fun r => if shouldTombstone merchantId seen r
                             then { r with status := "delete" } else r)
      markedForDelete := hits.length
      unmatched := hits.length }
  else if !prune && !seen.isEmpty then
    { db := db
      markedForDelete := 0
      unmatched := (db.filter (shouldTombstone merchantId seen)).length }
  else
    { db := db, markedForDelete := 0, unmatched := 0 }

/-- One remote item record as consumed by the product sync mappers
(`it` in unnamed part_006 lines 66-80, `item` in services/syncService.js
lines 161-209).  `categoryIds` models `it.categories.elements[i].id` in
order; `code` is the Clover SKU field, `sku` the field syncService stores
as UPC. -/
structure RemoteItem where
  id : String
  name : Option String
  alternateName : Option String
  code : Option String
  sku : Option String
  price : Option Int
  hidden : Bool
  deleted : Bool
  itemGroupId : Option String
  categoryIds : List String
deriving DecidableEq, Repr

/-- The JavaScript expression `s || null` on a nullable string: an absent or
empty string becomes null, anything else passes through. -/
def jsStringOrNull (s : Option String) : Option String :=
  match s with
  | some v => if v = "" then none else some v
  | none => none

/-- The incoming SKU of the part_006 item mapper (line 71):
`(it.code || '').trim() || null`. -/
def normalizeSku (code : Option String) : Option String :=
  jsStringOrNull (some (code.getD "").trim)

/-- The SQL expression `COALESCE(NULLIF(EXCLUDED.sku, ''), products.sku)`
shared by the `ON CONFLICT` clauses of unnamed part_006 (line 101) and of
the skus upsert in services/productService.js (line 181). -/
def skuOnConflict (incomingSku existingSku : Option String) : Option String :=
  match incomingSku with
  | some s => if s = "" then existingSku else some s
  | none => existingSku

/-- One row of the `products` table as written by the part_006
`syncAllProducts` item phase, restricted to the columns of its
`ON CONFLICT ... DO UPDATE SET` list plus the conflict key. -/
structure ProductRowV6 where
  merchantId : String
  cloverItemId : String
  itemGroupId : Option String
  categoryId : Option String
  name : String
  sku : Option String
  priceCents : Int
  active : Bool
deriving DecidableEq, Repr

/-- The item-to-products field mapping of unnamed part_006 (lines 66-116).
`catMap` is the `categoryIdByClover` lookup; an unresolved category id maps
to null. -/
def mapItemRowV6 (merchantId : String) (catMap : String → Option String)
    (it : RemoteItem) : ProductRowV6 :=
  { merchantId := merchantId
    cloverItemId := it.id
    itemGroupId := it.itemGroupId
    categoryId := match it.categoryIds.head? with
      | some cid => catMap cid
      | none => none
    name := (it.name.getD "").trim
    sku := normalizeSku it.code
    priceCents := it.price.getD 0
    active := !it.hidden }

/-- The `ON CONFLICT (merchant_id, clover_item_id) DO UPDATE SET` clause of
the part_006 products upsert (lines 96-105): name, item group, category,
price and active flag take the incoming values, and the SKU coalesces —
a blank incoming SKU preserves the stored one. -/
def productOnConflictV6 (old incoming : ProductRowV6) : ProductRowV6 :=
  { old with
    name := incoming.name
    itemGroupId := incoming.itemGroupId
    categoryId := incoming.categoryId
    sku := skuOnConflict incoming.sku old.sku
    priceCents := incoming.priceCents
    active := incoming.active }

/-- One row of the `products` table as written by syncService.syncProducts
(services/syncService.js lines 176-209), restricted to the columns of its
`DO UPDATE SET` list plus the conflict key. -/
structure ProductRowSS where
  merchantId : String
  cloverId : String
  name : String
  description : Option String
  priceCents : Int
  sku : Option String
  upc : Option String
  categoryId : Option String
  visibleInKiosk : Bool
  brand : Option String
  active : Bool
deriving DecidableEq, Repr

/-- The item-to-products field mapping of syncService.syncProducts
(services/syncService.js lines 161-209): `sku` is `item.code || null`,
`upc` is `item.sku || null`, and `catLookup` resolves the first expanded
category id to a local category id (null when unresolved). -/
def mapItemRowSS (merchantId : String) (catLookup : String → Option String)
    (it : RemoteItem) : ProductRowSS :=
  { merchantId := merchantId
    cloverId := it.id
    name := match it.name with
      | some n => if n = "" then "Unnamed Product" else n
      | none => "Unnamed Product"
    description := jsStringOrNull it.alternateName
    priceCents := it.price.getD 0
    sku := jsStringOrNull it.code
    upc := jsStringOrNull it.sku
    categoryId := match it.categoryIds.head? with
      | some cid => catLookup cid
      | none => none
    visibleInKiosk := !it.hidden
    brand := none
    active := !it.deleted }

/-- The `ON CONFLICT (merchant_id, clover_id) DO UPDATE SET` clause of the
syncService.syncProducts upsert (services/syncService.js lines 182-194):
every listed column, the SKU included, takes the incoming (`EXCLUDED`)
value. -/
def productOnConflictSS (old incoming : ProductRowSS) : ProductRowSS :=
  { old with
    name := incoming.name
    description := incoming.description
    priceCents := incoming.priceCents
    sku := incoming.sku
    upc := incoming.upc
    categoryId := incoming.categoryId
    visibleInKiosk := incoming.visibleInKiosk
    brand := incoming.brand
    active := incoming.active }

/-- Local-database transaction events issued by an orchestrator, in order. -/
inductive TxnEvent where
  | beginTxn
  | commitTxn
  | rollbackTxn
deriving DecidableEq, Repr

/-- One page of upserts inside a `BEGIN`/`COMMIT` pair with `ROLLBACK` on
error, as in the page handlers of `syncAllProducts` (unnamed part_006 lines
27-50, 63-123, 132-166 and services/productService.js lines 68-83):
records are applied in order; the first failing record aborts the page and
the page's writes are discarded. -/
def runPageTxn {R DB : Type} (upsertRecord : DB → R → Except String DB)
    (db : DB) (page : List R) : Except String DB :=
  page.foldlM upsertRecord db

/-- The page loop of `syncAllProducts` for one phase (unnamed part_006 and
services/productService.js): each page runs in its own transaction; a
committed page's writes persist; a failing page is rolled back and its
error re-thrown (`catch (e) { await client.query('ROLLBACK'); throw e; }`),
so the remaining pages are never processed.  Returns the database visible
after the call together with the thrown error, if any. -/
def syncAllProductsPhase {R DB : Type} (upsertRecord : DB → R → Except String DB) :
    DB → List (List R) → DB × Option String
  | db, [] => (db, none)
  | db, page :: rest =>
    match runPageTxn upsertRecord db page with
    | Except.ok db' => syncAllProductsPhase upsertRecord db' rest
    | Except.error e => (db, some e)

/-- Report of one syncService phase: final database, `processed` count,
error list, and the transaction events issued. -/
structure PhaseReport (DB : Type) where
  db : DB
  processed : Nat
  errors : List String
  events : List TxnEvent
deriving Repr

/-- The record step of syncService.syncCategories (services/syncService.js
lines 94-122): a successful upsert increments `processed`; a failing one
appends a message to the phase's error list and processing continues with
the next record. -/
def syncServiceRecordStep {R DB : Type} (upsertRecord : DB → R → Except String DB)
    (label : R → String) (acc : DB × Nat × List String) (r : R) :
    DB × Nat × List String :=
  match upsertRecord acc.1 r with
  | Except.ok db' => (db', acc.2.1 + 1, acc.2.2)
  | Except.error e => (acc.1, acc.2.1, acc.2.2 ++ [label r ++ ": " ++ e])

/-- One phase of syncService (syncCategories, services/syncService.js lines
86-139; syncProducts and syncInventory are shaped identically): `BEGIN` is
issued once before the page loop and `COMMIT` once after it, so the whole
phase — every page — shares a single transaction; records of all pages are
processed in order with per-record error capture. -/
def syncServicePhase {R DB : Type} (upsertRecord : DB → R → Except String DB)
    (label : R → String) (db0 : DB) (pages : List (List R)) : PhaseReport DB :=
  let final := pages.flatten.foldl (syncServiceRecordStep upsertRecord label) (db0, 0, [])
  { db := final.1
    processed := final.2.1
    errors := final.2.2
    events := [TxnEvent.beginTxn, TxnEvent.commitTxn] }

/-- Fixture: local transactions row for remote order `A`. -/
def rowA : TransactionRow :=
  { merchantId := "M", cloverOrderId := some "A", externalId := none
    subtotalCents := 1000, taxCents := 0, discountCents := 0, totalCents := 1000
    status := "OPEN", orderFromSc := false, completedAt := none }

/-- Fixture: local transactions row for remote order `B`. -/
def rowB : TransactionRow :=
  { rowA with cloverOrderId := some "B" }

/-- Fixture: local transactions row for remote order `C`. -/
def rowC : TransactionRow :=
  { rowA with cloverOrderId := some "C" }

/-- Fixture: a local transactions row already carrying the tombstone
status. -/
def rowD : TransactionRow :=
  { rowA with cloverOrderId := some "D", status := "delete" }

/-- Fixture: a remote order whose `total` (2100) differs from the sum of its
line-item prices (2000). -/
def orderTotalMismatch : RemoteOrder :=
  { id := "O1", externalId := none, state := "OPEN", paymentState := none
    total := some 2100
    lineItems := some [{ itemId := none, name := none, price := some 2000
                         quantity := some 1, total := none }] }

/-- Fixture: a remote order whose payment state is `PAID`. -/
def paidOrder : RemoteOrder :=
  { id := "P1", externalId := none, state := "PAID"
    paymentState := some "PAID", total := some 1500, lineItems := some [] }

/-- Fixture: a remote order that is still open (payment state absent). -/
def openOrder : RemoteOrder :=
  { id := "Q1", externalId := some "x", state := "OPEN", paymentState := none
    total := some 500, lineItems := none }

/-- Fixture: a syncService products row holding a locally stored SKU. -/
def localSkuRow : ProductRowSS :=
  { merchantId := "M", cloverId := "I1", name := "Whey", description := none
    priceCents := 2000, sku := some "LOCAL-1", upc := none, categoryId := none
    visibleInKiosk := true, brand := none, active := true }

/-- Fixture: a remote item that supplies no SKU (`code` absent). -/
def blankSkuItem : RemoteItem :=
  { id := "I1", name := some "Whey", alternateName := none, code := none
    sku := none, price := some 2000, hidden := false, deleted := false
    itemGroupId := none, categoryIds := [] }

/-- Helper: a row already carrying the tombstone status is never selected by
the prune predicate. -/
theorem shouldTombstone_of_deleted (m : String) (seen : List String)
    (r : TransactionRow) (h : r.status = "delete") :
    shouldTombstone m seen r = false := by
  simp [shouldTombstone, h]

/-- C9: the derived stock status equals OUT_OF_STOCK when on_hand <= 0 for
any reorder level, LOW_STOCK when 0 < on_hand <= reorder_level (boundary
inclusive), IN_STOCK otherwise; concretely, on_hand 3 / reorder 5 and
on_hand 5 / reorder 5 give LOW_STOCK and on_hand 6 / reorder 5 gives
IN_STOCK. -/
theorem stockStatus_spec :
    (∀ onHand reorderLevel : Int, onHand ≤ 0 →
        stockStatus onHand reorderLevel = StockStatus.OUT_OF_STOCK) ∧
    (∀ onHand reorderLevel : Int, 0 < onHand → onHand ≤ reorderLevel →
        stockStatus onHand reorderLevel = StockStatus.LOW_STOCK) ∧
    (∀ onHand reorderLevel : Int, 0 < onHand → reorderLevel < onHand →
        stockStatus onHand reorderLevel = StockStatus.IN_STOCK) ∧
    stockStatus 3 5 = StockStatus.LOW_STOCK ∧
    stockStatus 5 5 = StockStatus.LOW_STOCK ∧
    stockStatus 6 5 = StockStatus.IN_STOCK ∧
    (∀ reorderLevel : Int, stockStatus 0 reorderLevel = StockStatus.OUT_OF_STOCK) := by
  refine ⟨?_, ?_, ?_, by decide, by decide, by decide, ?_⟩
  · intro a b h
    simp [stockStatus, h]
  · intro a b h1 h2
    rw [stockStatus, if_neg (by omega), if_pos h2]
  · intro a b h1 h2
    rw [stockStatus, if_neg (by omega), if_neg (by omega)]
  · intro b
    simp [stockStatus]

/-- Witness for `stockStatus_spec` at concrete inputs. -/
theorem stockStatus_spec_witness :
    stockStatus (-2) 7 = StockStatus.OUT_OF_STOCK ∧
    stockStatus 4 9 = StockStatus.LOW_STOCK ∧
    stockStatus 9 4 = StockStatus.IN_STOCK :=
  ⟨stockStatus_spec.1 (-2) 7 (by decide),
   stockStatus_spec.2.1 4 9 (by decide) (by decide),
   stockStatus_spec.2.2.1 9 4 (by decide) (by decide)⟩

/-- C10: a remote sweep that yields zero order records leaves every local
transactions row unchanged and reports marked_for_delete = 0 and
unmatched = 0, for either value of the prune flag. -/
theorem pruneOrders_empty_sweep :
    ∀ (db : List TransactionRow) (merchantId : String) (prune : Bool),
      pruneOrders db merchantId [] prune = ⟨db, 0, 0⟩ := by
  intro db m pr
  simp [pruneOrders]

/-- C3: with local orders A, B, C and a remote sweep seeing only A and C,
pruning updates exactly B to the tombstone status and leaves A and C
unchanged; the same sweep without pruning modifies no row and reports
unmatched = 1; and a row already in the tombstone status is never selected
again — it survives any prune run unchanged. -/
theorem syncOrders_prune_spec :
    (pruneOrders [rowA, rowB, rowC] "M" ["A", "C"] true =
      ⟨[rowA, { rowB with status := "delete" }, rowC], 1, 1⟩) ∧
    (pruneOrders [rowA, rowB, rowC] "M" ["A", "C"] false =
      ⟨[rowA, rowB, rowC], 0, 1⟩) ∧
    (∀ (db : List TransactionRow) (m : String) (seen : List String)
        (pr : Bool) (r : TransactionRow), r ∈ db → r.status = "delete" →
        r ∈ (pruneOrders db m seen pr).db) := by
  refine ⟨by decide, by decide, ?_⟩
  intro db m seen pr r hmem hstat
  by_cases h1 : (pr && !seen.isEmpty) = true
  · simp only [pruneOrders, h1, if_true]
    have := List.mem_map_of_mem
      (fun x => if shouldTombstone m seen x then { x with status := "delete" } else x) hmem
    simpa [shouldTombstone_of_deleted m seen r hstat] using this
  · by_cases h2 : (!pr && !seen.isEmpty) = true
    · simp [pruneOrders, h1, h2, hmem]
    · simp [pruneOrders, h1, h2, hmem]

/-- Witness for `syncOrders_prune_spec`: a tombstoned row survives a prune
run over a sweep that does not contain it. -/
theorem syncOrders_prune_spec_witness :
    rowD ∈ (pruneOrders [rowD] "M" ["X"] true).db :=
  syncOrders_prune_spec.2.2 [rowD] "M" ["X"] true rowD (by decide) (by decide)

/-- C8: after the transactions upsert, a previously recorded completion
timestamp is never cleared — a later sync with a non-PAID payment state
preserves it, and a PAID record (re)stamps it with the current time, so the
stored value never returns to null once set. -/
theorem completedAt_never_cleared :
    (∀ (old : TransactionRow) (m : String) (o : RemoteOrder) (now t : Nat),
        old.completedAt = some t →
        (applyOrderUpdate old (mapOrderRow m o now)).completedAt ≠ none) ∧
    (∀ (old : TransactionRow) (m : String) (o : RemoteOrder) (now : Nat),
        o.paymentState ≠ some "PAID" →
        (applyOrderUpdate old (mapOrderRow m o now)).completedAt =
          old.completedAt) ∧
    (∀ (old : TransactionRow) (m : String) (o : RemoteOrder) (now : Nat),
        o.paymentState = some "PAID" →
        (applyOrderUpdate old (mapOrderRow m o now)).completedAt = some now) := by
  refine ⟨?_, ?_, ?_⟩
  · intro old m o now t ht
    by_cases hp : o.paymentState = some "PAID" <;>
      simp [applyOrderUpdate, mapOrderRow, hp, Option.orElse, ht]
  · intro old m o now hp
    simp [applyOrderUpdate, mapOrderRow, hp, Option.orElse]
  · intro old m o now hp
    simp [applyOrderUpdate, mapOrderRow, hp, Option.orElse]

/-- Witness for `completedAt_never_cleared`: a stamped row re-synced with a
non-PAID state keeps its completion time, and a PAID record stamps it. -/
theorem completedAt_never_cleared_witness :
    (applyOrderUpdate { rowA with completedAt := some 7 }
        (mapOrderRow "M" openOrder 9)).completedAt = some 7 ∧
    (applyOrderUpdate rowA (mapOrderRow "M" paidOrder 9)).completedAt = some 9 ∧
    (applyOrderUpdate { rowA with completedAt := some 7 }
        (mapOrderRow "M" paidOrder 9)).completedAt ≠ none :=
  ⟨by
    have := completedAt_never_cleared.2.1 { rowA with completedAt := some 7 }
      "M" openOrder 9 (by decide)
    simpa using this,
   completedAt_never_cleared.2.2 rowA "M" paidOrder 9 (by decide),
   completedAt_never_cleared.1 { rowA with completedAt := some 7 }
     "M" paidOrder 9 7 (by decide)⟩

/-- C1 counterexample: syncing an order whose remote total (2100) differs
from the sum of its line-item prices (2000) stores a row with
subtotal_cents 2000, tax_cents 0, discount_cents 0, total_cents 2100 —
the claimed invariant total = subtotal + tax − discount fails, and the
stored tax is the constant 0, not total − subtotal − discount. -/
theorem syncOrders_money_invariant_cex :
    (upsertTransaction [] "M" orderTotalMismatch 0).1 =
      [mapOrderRow "M" orderTotalMismatch 0] ∧
    ¬ ((mapOrderRow "M" orderTotalMismatch 0).totalCents =
        (mapOrderRow "M" orderTotalMismatch 0).subtotalCents +
        (mapOrderRow "M" orderTotalMismatch 0).taxCents -
        (mapOrderRow "M" orderTotalMismatch 0).discountCents) := by
  constructor
  · decide
  · decide

/-- C1 amended: every row stored by the transactions upsert — freshly
inserted or updated on re-sync — carries tax_cents = 0 and
discount_cents = 0 (not a derived tax), subtotal_cents equal to the sum of
line-item prices, and total_cents equal to the remote total (default 0);
consequently total_cents = subtotal_cents + tax_cents − discount_cents
holds exactly when the remote total equals the sum of the line-item
prices. -/
theorem syncOrders_money_fields :
    ∀ (m : String) (o : RemoteOrder) (now : Nat) (old : TransactionRow),
      (mapOrderRow m o now).taxCents = 0 ∧
      (mapOrderRow m o now).discountCents = 0 ∧
      (mapOrderRow m o now).subtotalCents = orderSubtotalCents o ∧
      (mapOrderRow m o now).totalCents = o.total.getD 0 ∧
      (applyOrderUpdate old (mapOrderRow m o now)).taxCents = 0 ∧
      (applyOrderUpdate old (mapOrderRow m o now)).discountCents = 0 ∧
      (applyOrderUpdate old (mapOrderRow m o now)).subtotalCents =
        orderSubtotalCents o ∧
      (applyOrderUpdate old (mapOrderRow m o now)).totalCents = o.total.getD 0 ∧
      ((mapOrderRow m o now).totalCents =
          (mapOrderRow m o now).subtotalCents + (mapOrderRow m o now).taxCents -
          (mapOrderRow m o now).discountCents ↔
        o.total.getD 0 = orderSubtotalCents o) := by
  intro m o now old
  simp [mapOrderRow, applyOrderUpdate]

/-- C6 counterexample: re-syncing a byte-identical PAID order at a later
clock overwrites completed_at with the later time, so the second run does
not leave the row contents identical to the first run. -/
theorem syncOrders_idempotence_cex :
    (upsertTransaction ((upsertTransaction [] "M" paidOrder 1).1)
        "M" paidOrder 2).1 ≠
      (upsertTransaction [] "M" paidOrder 1).1 := by
  decide

/-- C6 amended: re-running the transactions upsert with a byte-identical
remote record reports inserted = false (so a second full run yields
inserted = 0), and leaves the row identical — except that an order whose
payment state is PAID gets completed_at overwritten with the second run's
current time. -/
theorem syncOrders_second_run :
    ∀ (m : String) (o : RemoteOrder) (t1 t2 : Nat),
      (upsertTransaction ((upsertTransaction [] m o t1).1) m o t2).2 = false ∧
      (o.paymentState ≠ some "PAID" →
        (upsertTransaction ((upsertTransaction [] m o t1).1) m o t2).1 =
          (upsertTransaction [] m o t1).1) ∧
      (o.paymentState = some "PAID" →
        (upsertTransaction ((upsertTransaction [] m o t1).1) m o t2).1 =
          [{ mapOrderRow m o t1 with completedAt := some t2 }]) := by
  intro m o t1 t2
  refine ⟨?_, ?_, ?_⟩
  · simp [upsertTransaction, matchesOrderKey, mapOrderRow]
  · intro hp
    simp [upsertTransaction, matchesOrderKey, applyOrderUpdate, mapOrderRow,
      hp, Option.orElse]
  · intro hp
    simp [upsertTransaction, matchesOrderKey, applyOrderUpdate, mapOrderRow,
      hp, Option.orElse]

/-- Witness for `syncOrders_second_run`: a non-PAID order's re-sync is a
no-op, a PAID order's re-sync restamps completed_at, and both count as an
update rather than an insert. -/
theorem syncOrders_second_run_witness :
    (upsertTransaction ((upsertTransaction [] "M" openOrder 1).1)
        "M" openOrder 2).1 = (upsertTransaction [] "M" openOrder 1).1 ∧
    (upsertTransaction ((upsertTransaction [] "M" paidOrder 1).1)
        "M" paidOrder 2).1 =
      [{ mapOrderRow "M" paidOrder 1 with completedAt := some 2 }] ∧
    (upsertTransaction ((upsertTransaction [] "M" paidOrder 1).1)
        "M" paidOrder 2).2 = false :=
  ⟨(syncOrders_second_run "M" openOrder 1 2).2.1 (by decide),
   (syncOrders_second_run "M" paidOrder 1 2).2.2 (by decide),
   (syncOrders_second_run "M" paidOrder 1 2).1⟩

/-- C7 counterexample: in syncService.syncProducts, upserting a remote item
that supplies no SKU over a row whose locally stored SKU is non-empty
writes sku = null — the incoming blank SKU clobbers the local one instead
of being coalesced. -/
theorem product_upsert_sku_cex :
    (productOnConflictSS localSkuRow
        (mapItemRowSS "M" (fun _ => none) blankSkuItem)).sku = none ∧
    localSkuRow.sku = some "LOCAL-1" := by
  constructor
  · decide
  · decide

/-- C7 amended: the part_006 syncAllProducts products upsert (and the skus
upsert of services/productService.js, which shares the same COALESCE
expression) updates the mutable fields to the incoming values while
coalescing the SKU — a blank or absent incoming SKU preserves the stored
one and a non-blank incoming SKU overwrites it; the syncService.syncProducts
upsert instead sets sku = EXCLUDED.sku unconditionally, so an item with an
absent code stores a null SKU over any local value. -/
theorem product_upsert_sku_coalesce :
    (∀ old incoming : ProductRowV6,
        incoming.sku = none ∨ incoming.sku = some "" →
        (productOnConflictV6 old incoming).sku = old.sku) ∧
    (∀ (old incoming : ProductRowV6) (s : String), incoming.sku = some s →
        s ≠ "" → (productOnConflictV6 old incoming).sku = some s) ∧
    (∀ old incoming : ProductRowV6,
        (productOnConflictV6 old incoming).name = incoming.name ∧
        (productOnConflictV6 old incoming).priceCents = incoming.priceCents ∧
        (productOnConflictV6 old incoming).categoryId = incoming.categoryId ∧
        (productOnConflictV6 old incoming).active = incoming.active) ∧
    (∀ (m : String) (catMap : String → Option String) (it : RemoteItem)
        (old : ProductRowV6), (it.code.getD "").trim = "" →
        (productOnConflictV6 old (mapItemRowV6 m catMap it)).sku = old.sku) ∧
    (∀ (old : ProductRowSS) (m : String) (cat : String → Option String)
        (it : RemoteItem), it.code = none →
        (productOnConflictSS old (mapItemRowSS m cat it)).sku = none) := by
  refine ⟨?_, ?_, ?_, ?_, ?_⟩
  · intro old incoming h
    rcases h with h | h <;> simp [productOnConflictV6, skuOnConflict, h]
  · intro old incoming s hs hne
    simp [productOnConflictV6, skuOnConflict, hs, hne]
  · intro old incoming
    simp [productOnConflictV6]
  · intro m catMap it old h
    simp [productOnConflictV6, mapItemRowV6, normalizeSku, jsStringOrNull,
      skuOnConflict, h]
  · intro old m cat it h
    simp [productOnConflictSS, mapItemRowSS, jsStringOrNull, h]

/-- Witness for `product_upsert_sku_coalesce` at concrete rows: the part_006
upsert preserves a local SKU against a blank incoming one and overwrites it
with a non-blank one, while the syncService upsert nulls it. -/
theorem product_upsert_sku_coalesce_witness :
    (productOnConflictV6
        { merchantId := "M", cloverItemId := "I1", itemGroupId := none
          categoryId := none, name := "Whey", sku := some "LOCAL-1"
          priceCents := 2000, active := true }
        { merchantId := "M", cloverItemId := "I1", itemGroupId := none
          categoryId := none, name := "Whey", sku := none
          priceCents := 2100, active := true }).sku = some "LOCAL-1" ∧
    (productOnConflictV6
        { merchantId := "M", cloverItemId := "I1", itemGroupId := none
          categoryId := none, name := "Whey", sku := some "LOCAL-1"
          priceCents := 2000, active := true }
        { merchantId := "M", cloverItemId := "I1", itemGroupId := none
          categoryId := none, name := "Whey", sku := some "NEW-9"
          priceCents := 2100, active := true }).sku = some "NEW-9" ∧
    (productOnConflictSS localSkuRow
        (mapItemRowSS "M" (fun _ => none) blankSkuItem)).sku = none :=
  ⟨product_upsert_sku_coalesce.1 _ _ (Or.inl rfl),
   product_upsert_sku_coalesce.2.1 _ _ "NEW-9" rfl (by decide),
   product_upsert_sku_coalesce.2.2.2.2 localSkuRow "M" (fun _ => none)
     blankSkuItem rfl⟩

/-- Helper: folding the syncService record step over a record list reaches
every record — the processed count plus the error count equals the total
number of records, whatever the database and the per-record outcomes. -/
theorem syncServiceRecordStep_total {R DB : Type}
    (up : DB → R → Except String DB) (label : R → String) :
    ∀ (l : List R) (acc : DB × Nat × List String),
      (l.foldl (syncServiceRecordStep up label) acc).2.1 +
        (l.foldl (syncServiceRecordStep up label) acc).2.2.length =
      acc.2.1 + acc.2.2.length + l.length := by
  intro l
  induction l with
  | nil => intro acc; simp
  | cons r t ih =>
    intro acc
    rw [List.foldl_cons, ih]
    unfold syncServiceRecordStep
    cases up acc.1 r <;> simp <;> omega

/-- C2 counterexample: in the syncAllProducts page loop a failing first page
is rolled back and its error re-thrown, so the second page is never
processed (the final database is empty and the error escapes — there is no
phase error list); and in a syncService phase two pages share a single
BEGIN/COMMIT pair, not one transaction per page. -/
theorem sync_page_isolation_cex :
    syncAllProductsPhase
        (fun (db : List Bool) (r : Bool) =>
          if r then Except.ok (db ++ [r]) else Except.error "constraint violation")
        [] [[false], [true]] = ([], some "constraint violation") ∧
    (syncServicePhase
        (fun (db : List Bool) (r : Bool) =>
          if r then Except.ok (db ++ [r]) else Except.error "bad")
        (fun _ => "record") [] [[true], [true]]).events =
      [TxnEvent.beginTxn, TxnEvent.commitTxn] := by
  constructor
  · simp [syncAllProductsPhase, runPageTxn]
  · simp [syncServicePhase]

/-- C2 amended: in the syncAllProducts variants each page runs in its own
transaction — a page whose records all succeed commits and the loop
continues on the committed state, while a failing page leaves the database
as it was before that page and aborts the run with the thrown error, so
subsequent pages are not processed and no error list is produced; in the
syncService phases one transaction spans the whole phase (a single
BEGIN/COMMIT pair regardless of page count) and errors are caught per
record — every record of every page is reached, each failure adding one
entry to the phase's error list. -/
theorem sync_page_isolation_amended :
    (∀ (R DB : Type) (up : DB → R → Except String DB) (db db' : DB)
        (page : List R) (rest : List (List R)),
        runPageTxn up db page = Except.ok db' →
        syncAllProductsPhase up db (page :: rest) =
          syncAllProductsPhase up db' rest) ∧
    (∀ (R DB : Type) (up : DB → R → Except String DB) (db : DB)
        (page : List R) (rest : List (List R)) (e : String),
        runPageTxn up db page = Except.error e →
        syncAllProductsPhase up db (page :: rest) = (db, some e)) ∧
    (∀ (R DB : Type) (up : DB → R → Except String DB) (label : R → String)
        (db0 : DB) (pages : List (List R)),
        (syncServicePhase up label db0 pages).events =
          [TxnEvent.beginTxn, TxnEvent.commitTxn] ∧
        (syncServicePhase up label db0 pages).processed +
          (syncServicePhase up label db0 pages).errors.length =
          pages.flatten.length) := by
  refine ⟨?_, ?_, ?_⟩
  · intro R DB up db db' page rest h
    simp [syncAllProductsPhase, h]
  · intro R DB up db page rest e h
    simp [syncAllProductsPhase, h]
  · intro R DB up label db0 pages
    refine ⟨rfl, ?_⟩
    have := syncServiceRecordStep_total up label pages.flatten (db0, 0, [])
    simpa [syncServicePhase] using this

/-- Witness for `sync_page_isolation_amended` at concrete pages: a committed
page carries its writes into the next page's run, a failing page aborts
with the database rolled back to the page boundary, and a two-page
syncService phase with one bad record issues one transaction and reports
processed 2 with one error entry. -/
theorem sync_page_isolation_amended_witness :
    syncAllProductsPhase
        (fun (db : List Nat) (r : Nat) =>
          if r = 0 then Except.error "zero" else Except.ok (db ++ [r]))
        [] [[1], [2]] = ([1, 2], none) ∧
    syncAllProductsPhase
        (fun (db : List Nat) (r : Nat) =>
          if r = 0 then Except.error "zero" else Except.ok (db ++ [r]))
        [7] [[0], [2]] = ([7], some "zero") ∧
    ((syncServicePhase
        (fun (db : List Nat) (r : Nat) =>
          if r = 0 then Except.error "zero" else Except.ok (db ++ [r]))
        (fun _ => "r") [] [[1], [0, 2]]).events =
      [TxnEvent.beginTxn, TxnEvent.commitTxn] ∧
     (syncServicePhase
        (fun (db : List Nat) (r : Nat) =>
          if r = 0 then Except.error "zero" else Except.ok (db ++ [r]))
        (fun _ => "r") [] [[1], [0, 2]]).processed +
       (syncServicePhase
        (fun (db : List Nat) (r : Nat) =>
          if r = 0 then Except.error "zero" else Except.ok (db ++ [r]))
        (fun _ => "r") [] [[1], [0, 2]]).errors.length = 3) := by
  refine ⟨?_, ?_, ?_⟩
  · have h1 : runPageTxn
        (fun (db : List Nat) (r : Nat) =>
          if r = 0 then Except.error "zero" else Except.ok (db ++ [r]))
        [] [1] = Except.ok [1] := by simp [runPageTxn]
    have h2 := sync_page_isolation_amended.1 Nat (List Nat)
      (fun (db : List Nat) (r : Nat) =>
        if r = 0 then Except.error "zero" else Except.ok (db ++ [r]))
      [] [1] [1] [[2]] h1
    rw [h2]
    simp [syncAllProductsPhase, runPageTxn]
  · exact sync_page_isolation_amended.2.1 Nat (List Nat)
      (fun (db : List Nat) (r : Nat) =>
        if r = 0 then Except.error "zero" else Except.ok (db ++ [r]))
      [7] [0] [[2]] "zero" (by simp [runPageTxn])
  · exact sync_page_isolation_amended.2.2 Nat (List Nat)
      (fun (db : List Nat) (r : Nat) =>
        if r = 0 then Except.error "zero" else Except.ok (db ++ [r]))
      (fun _ => "r") [] [[1], [0, 2]]

/-- Helper: a status below 400 is never in the retry set of `getWithRetry`. -/
theorem isRetryableStatus_of_lt_400 (s : Nat) (h : s < 400) :
    isRetryableStatus s = false := by
  simp only [isRetryableStatus, Bool.or_eq_false_iff, beq_eq_false_iff_ne,
    decide_eq_false_iff_not]
  omega

/-- C5 counterexample: a page fetch answered 503 — a 5xx status the claim
says triggers bounded exponential-backoff retry before failing — is never
retried: the client built by makeClient carries
`validateStatus: s => s < 500`, so axios rejects the response inside
`await http.get` and the rejection escapes `getWithRetry` uncaught; the
trace shows a single GET request and an empty backoff list. -/
theorem getWithRetry_5xx_cex :
    getWithRetry (fun _ => 503) = ⟨RetryResult.httpThrown 503, 1, []⟩ := by
  rw [getWithRetry, getWithRetryLoop]
  norm_num

/-- C5 amended: through `getWithRetry`, only 408 and 429 responses are
retried — with delays doubling from the 300 ms base and failure after the
fixed budget of 4 attempts (three sleeps of 300, 600, 1200 ms); any 5xx
response makes the axios client (`validateStatus: s => s < 500`) throw on
that very request — an immediate, un-retried failure, the loop's own
`res.status >= 500` disjunct being unreachable; any other 4xx fails
immediately with a single request and no backoff; a sub-400 response
succeeds immediately.  In productService.fetchPaged no status is retried
at all: a 5xx rejects inside axios and any other status >= 400 is thrown
by the loop's own check, after a single GET either way. -/
theorem getWithRetry_amended :
    (∀ statusAt : Nat → Nat,
        (∀ k, k < 4 → statusAt k = 408 ∨ statusAt k = 429) →
        getWithRetry statusAt =
          ⟨RetryResult.failed (statusAt 3), 4, [300, 600, 1200]⟩) ∧
    (∀ statusAt : Nat → Nat, 500 ≤ statusAt 0 →
        getWithRetry statusAt =
          ⟨RetryResult.httpThrown (statusAt 0), 1, []⟩) ∧
    (∀ statusAt : Nat → Nat, statusAt 0 ≠ 408 → statusAt 0 ≠ 429 →
        400 ≤ statusAt 0 → statusAt 0 < 500 →
        getWithRetry statusAt = ⟨RetryResult.failed (statusAt 0), 1, []⟩) ∧
    (∀ statusAt : Nat → Nat, statusAt 0 < 400 →
        getWithRetry statusAt = ⟨RetryResult.ok (statusAt 0), 1, []⟩) ∧
    (∀ s : Nat, 500 ≤ s →
        fetchPagedStatusCheck s = ⟨RetryResult.httpThrown s, 1, []⟩) ∧
    (∀ s : Nat, 400 ≤ s → s < 500 →
        fetchPagedStatusCheck s = ⟨RetryResult.failed s, 1, []⟩) := by
  refine ⟨?_, ?_, ?_, ?_, ?_, ?_⟩
  · intro f h
    have hlt : ∀ k, k < 4 → ¬ (500 ≤ f k) := by
      intro k hk
      rcases h k hk with h' | h' <;> omega
    have hr : ∀ k, k < 4 → isRetryableStatus (f k) = true := by
      intro k hk
      rcases h k hk with h' | h' <;> simp [isRetryableStatus, h']
    rw [getWithRetry, getWithRetryLoop]
    simp only [hlt 0 (by omega), hr 0 (by omega), if_true, ite_false]
    rw [getWithRetryLoop]
    simp only [hlt 1 (by omega), hr 1 (by omega), if_true, ite_false]
    rw [getWithRetryLoop]
    simp only [hlt 2 (by omega), hr 2 (by omega), if_true, ite_false]
    rw [getWithRetryLoop]
    simp only [hlt 3 (by omega), hr 3 (by omega), if_true, ite_false]
    norm_num
  · intro f h5
    rw [getWithRetry, getWithRetryLoop]
    simp [h5]
  · intro f h408 h429 h400 h500
    have hnr : isRetryableStatus (f 0) = false := by
      simp only [isRetryableStatus, Bool.or_eq_false_iff, beq_eq_false_iff_ne,
        decide_eq_false_iff_not]
      omega
    rw [getWithRetry, getWithRetryLoop]
    simp [hnr, h400, show ¬ (500 ≤ f 0) by omega]
  · intro f h0
    rw [getWithRetry, getWithRetryLoop]
    simp [isRetryableStatus_of_lt_400 (f 0) h0, show ¬ (500 ≤ f 0) by omega]
    omega
  · intro s h5
    simp [fetchPagedStatusCheck, h5]
  · intro s h4 h5
    rw [fetchPagedStatusCheck]
    rw [if_neg (by omega), if_pos h4]

/-- Witness for `getWithRetry_amended`: a server that always answers 429 is
retried with 300/600/1200 ms backoff and fails on the 4th attempt; a 503
escapes as a thrown axios rejection after one request and no backoff; a
404 fails at once with no retry; a 200 succeeds at once; in fetchPaged a
502 throws inside axios and a 404 is thrown by the status check, each
after a single GET. -/
theorem getWithRetry_amended_witness :
    getWithRetry (fun _ => 429) =
      ⟨RetryResult.failed 429, 4, [300, 600, 1200]⟩ ∧
    getWithRetry (fun _ => 503) = ⟨RetryResult.httpThrown 503, 1, []⟩ ∧
    getWithRetry (fun _ => 404) = ⟨RetryResult.failed 404, 1, []⟩ ∧
    getWithRetry (fun _ => 200) = ⟨RetryResult.ok 200, 1, []⟩ ∧
    fetchPagedStatusCheck 502 = ⟨RetryResult.httpThrown 502, 1, []⟩ ∧
    fetchPagedStatusCheck 404 = ⟨RetryResult.failed 404, 1, []⟩ :=
  ⟨getWithRetry_amended.1 (fun _ => 429) (fun _ _ => Or.inr rfl),
   getWithRetry_amended.2.1 (fun _ => 503) (by decide),
   getWithRetry_amended.2.2.1 (fun _ => 404) (by decide) (by decide)
     (by decide) (by decide),
   getWithRetry_amended.2.2.2.1 (fun _ => 200) (by decide),
   getWithRetry_amended.2.2.2.2.1 502 (by decide),
   getWithRetry_amended.2.2.2.2.2 404 (by decide) (by decide)⟩

/-- Helper: over a collection of exactly `N * L` records the fetch loop
issues `N + 1` requests whose last page is empty, and hands the handler
exactly `N` full pages of length `L`. -/
theorem fetchPagedLoop_exact {α : Type} (L : Nat) (hL : 0 < L) :
    ∀ (N : Nat) (remaining : List α), remaining.length = N * L →
      (fetchPagedLoop L remaining).requests.length = N + 1 ∧
      (∃ ps, (fetchPagedLoop L remaining).requests = ps ++ [[]]) ∧
      (fetchPagedLoop L remaining).handled.length = N ∧
      (∀ p ∈ (fetchPagedLoop L remaining).handled, p.length = L) := by
  intro N
  induction N with
  | zero =>
    intro remaining h
    have hnil : remaining = [] := List.eq_nil_of_length_eq_zero (by simpa using h)
    subst hnil
    rw [fetchPagedLoop]
    simp
  | succ n ih =>
    intro remaining h
    have hmul : (n + 1) * L = n * L + L := by ring
    have hlen : remaining.length = n * L + L := by rw [h, hmul]
    have htake : (remaining.take L).length = L := by
      rw [List.length_take]; omega
    have hdrop : (remaining.drop L).length = n * L := by
      rw [List.length_drop]; omega
    rw [fetchPagedLoop, dif_neg (by omega), dif_neg (by rw [htake]; omega)]
    obtain ⟨h1, ⟨ps, hps⟩, h3, h4⟩ := ih (remaining.drop L) hdrop
    refine ⟨by simpa using h1, ⟨remaining.take L :: ps, by simp [hps]⟩,
      by simpa using h3, ?_⟩
    intro p hp
    rcases List.mem_cons.mp hp with hp | hp
    · rw [hp, htake]
    · exact h4 p hp

/-- Helper: over a collection of `N * L - 1` records (`N ≥ 1`) the fetch
loop issues exactly `N` requests, and the last request returns a short
page. -/
theorem fetchPagedLoop_short {α : Type} (L : Nat) (hL : 0 < L) :
    ∀ (N : Nat) (remaining : List α), 1 ≤ N →
      remaining.length = N * L - 1 →
      (fetchPagedLoop L remaining).requests.length = N ∧
      (∃ ps lastPage, (fetchPagedLoop L remaining).requests = ps ++ [lastPage] ∧
        lastPage.length < L) := by
  intro N
  induction N with
  | zero => intro remaining h0; exact absurd h0 (by omega)
  | succ n ih =>
    intro remaining _ h
    by_cases hn : n = 0
    · subst hn
      have hlen : remaining.length = L - 1 := by simpa using h
      have hlt : (remaining.take L).length < L := by
        rw [List.length_take]; omega
      rw [fetchPagedLoop]
      by_cases hz : (remaining.take L).length = 0
      · rw [dif_pos hz]
        refine ⟨rfl, [], remaining.take L, rfl, ?_⟩
        omega
      · rw [dif_neg hz, dif_pos hlt]
        exact ⟨rfl, [], remaining.take L, rfl, hlt⟩
    · have hmul : (n + 1) * L = n * L + L := by ring
      have hnL : 1 ≤ n * L := Nat.mul_pos (by omega) hL
      have hlen : remaining.length = n * L + L - 1 := by rw [h, hmul]
      have htake : (remaining.take L).length = L := by
        rw [List.length_take]; omega
      have hdrop : (remaining.drop L).length = n * L - 1 := by
        rw [List.length_drop]; omega
      rw [fetchPagedLoop, dif_neg (by omega), dif_neg (by rw [htake]; omega)]
      obtain ⟨h1, ps, lastPage, hps, hlast⟩ := ih (remaining.drop L) (by omega) hdrop
      exact ⟨by simpa using h1,
        ⟨remaining.take L :: ps, lastPage, by simp [hps], hlast⟩⟩

/-- C4: for page size L > 0, fetching a collection of exactly N × L records
issues N + 1 page requests, the last returning zero records, and invokes
the per-page handler exactly N times, once per (non-empty) page; fetching
N × L − 1 records issues N page requests, the last returning a short page
on which the loop stops. -/
theorem fetchPaged_pagination :
    (∀ (α : Type) (L N : Nat) (records : List α), 0 < L →
        records.length = N * L →
        (fetchPaged records L).requests.length = N + 1 ∧
        (∃ ps : List (List α),
          (fetchPaged records L).requests = ps ++ [([] : List α)]) ∧
        (fetchPaged records L).handled.length = N ∧
        (∀ p ∈ (fetchPaged records L).handled, p ≠ [])) ∧
    (∀ (α : Type) (L N : Nat) (records : List α), 0 < L → 1 ≤ N →
        records.length = N * L - 1 →
        (fetchPaged records L).requests.length = N ∧
        (∃ (ps : List (List α)) (lastPage : List α),
          (fetchPaged records L).requests = ps ++ [lastPage] ∧
          lastPage.length < L)) := by
  constructor
  · intro α L N records hL h
    simp only [fetchPaged]
    obtain ⟨h1, h2, h3, h4⟩ := fetchPagedLoop_exact L hL N records h
    refine ⟨h1, h2, h3, ?_⟩
    intro p hp
    have := h4 p hp
    intro hnil
    rw [hnil] at this
    simp at this
    omega
  · intro α L N records hL hN h
    simp only [fetchPaged]
    exact fetchPagedLoop_short L hL N records hN h

/-- Witness for `fetchPaged_pagination`: four records at page size two give
three requests (the last empty) and two handled pages; three records at
page size two give two requests, the last short. -/
theorem fetchPaged_pagination_witness :
    ((fetchPaged [10, 20, 30, 40] 2).requests.length = 3 ∧
      (fetchPaged [10, 20, 30, 40] 2).handled.length = 2) ∧
    (fetchPaged [10, 20, 30] 2).requests.length = 2 :=
  ⟨⟨((fetchPaged_pagination.1 Nat 2 2 [10, 20, 30, 40] (by omega) rfl)).1,
    ((fetchPaged_pagination.1 Nat 2 2 [10, 20, 30, 40] (by omega) rfl)).2.2.1⟩,
   (fetchPaged_pagination.2 Nat 2 2 [10, 20, 30] (by omega) (by omega) rfl).1⟩
